import Mathlib

/-!
# conqueror: playback lifecycle of `VideoApp` (src/main.cpp)

Shallow embedding of `VideoApp::on_play_toggled` and `VideoApp::play_video`.
Library calls made by the program are recorded, in program order, in a trace
of `Call`s; what the libraries answer (window handles, SDL events, pulled
samples, the decoded fallback image) is supplied by an environment record.
-/

namespace Conqueror

/-! ## Data model -/

/-- Rectangle filled in by `SDL_GetDisplayBounds`. -/
structure SDL_Rect where
  x : Int
  y : Int
  w : Int
  h : Int
deriving DecidableEq, Repr

/-- The SDL window behind `sdl_window`: its handle and the mode and geometry
that the calls of `play_video` set. -/
structure SDL_Window where
  handle : Nat
  fullscreen_desktop : Bool
  x : Int
  y : Int
  w : Int
  h : Int
deriving DecidableEq, Repr

/-- State of `std::thread playback_thread`. The handle is joinable from the
moment a thread is assigned to it until `join` returns; `finished` records
that the thread function has already returned (the handle is still joinable). -/
inductive ThreadState
  | not_joinable
  | running
  | finished
deriving DecidableEq, Repr

/-- Result of `std::thread::joinable`. -/
def ThreadState.joinable : ThreadState → Bool
  | .not_joinable => false
  | .running => true
  | .finished => true

/-- One decoded sample as `play_video` reads it: the `width` and `height`
fields of its caps and the mapped buffer (`map.data`, kept as a token). -/
structure GstSample where
  width : Int
  height : Int
  data : Nat
deriving DecidableEq, Repr

/-- Image returned by `stbi_load` (forced to 3 channels). -/
structure StbImage where
  img_w : Int
  img_h : Int
  img_data : Nat
deriving DecidableEq, Repr

/-- The SDL events `play_video` distinguishes. -/
inductive SDL_Event
  | quit
  | keydown (sym : Nat)
  | other
deriving DecidableEq, Repr

/-- Key code of `SDLK_f` (the character f). -/
def SDLK_f : Nat := 102

/-- One `glTexCoord2f (s, t); glVertex2f (x, y)` pair of an immediate-mode quad.
All literals in the source are -1, 0 or 1. -/
structure QuadVertex where
  s : Int
  t : Int
  x : Int
  y : Int
deriving DecidableEq, Repr

/-- Calls and outputs of the program, as they appear in the trace. -/
inductive Call
  | set_label (text : String)
  | button_set_active (b : Bool)
  | cerr (msg : String)
  | cout (msg : String)
  | cout_selected_display (display_index : Int)
  | thread_spawn (filename : String)
  | thread_join
  | std_terminate
  | SDL_Init
  | SDL_GetDisplayBounds (display_index : Int)
  | SDL_CreateWindow (x y w h : Int)
  | SDL_Quit
  | SDL_GL_CreateContext
  | glEnable
  | gst_parse_launch (filepath : String)
  | gst_bin_get_by_name
  | gst_element_set_state (playing : Bool)
  | glGenTextures
  | glBindTexture (texid : Nat)
  | glTexParameteri
  | SDL_PollEvent (e : Option SDL_Event)
  | SDL_SetWindowFullscreen (desktop : Bool)
  | SDL_SetWindowSize (w h : Int)
  | SDL_SetWindowPosition (x y : Int)
  | gst_app_sink_try_pull_sample (timeout : Nat) (result : Option GstSample)
  | gst_buffer_map
  | glTexImage2D (w h : Int) (data : Option Nat)
  | glTexSubImage2D (w h : Int) (data : Nat)
  | gst_buffer_unmap
  | gst_sample_unref
  | SDL_GetWindowSize
  | glViewport (w h : Int)
  | glClear
  | glQuads (vs : List QuadVertex)
  | SDL_GL_SwapWindow
  | SDL_Delay (ms : Nat)
  | gst_object_unref
  | glDeleteTextures (texid : Nat)
  | stbi_load (path : String)
  | stbi_image_free
deriving DecidableEq, Repr

/-- The members of `VideoApp` that `on_play_toggled` and `play_video` read or
write. The chooser and combo fields hold what `get_filename` and
`get_active_row_number` return. -/
structure VideoApp where
  button_active : Bool
  button_label : String
  file_chooser : String
  image_chooser : String
  combo_display : Int
  playback_thread : ThreadState
  stop_playback : Bool
  sdl_window : Option SDL_Window
  sdl_glcontext : Option Nat
deriving DecidableEq, Repr

/-- Member initialisers of `VideoApp` (lines 86-97) with the button created
inactive and labelled Start. -/
def VideoApp.init (file image : String) (display : Int) : VideoApp :=
  { button_active := false
    button_label := "Start"
    file_chooser := file
    image_chooser := image
    combo_display := display
    playback_thread := .not_joinable
    stop_playback := false
    sdl_window := none
    sdl_glcontext := none }

/-! ## `play_video` -/

/-- What the outside world supplies to one pass through the loop of line 190:
whether the UI thread has stored `true` into `stop_playback` since the
previous test of the loop condition, the events `SDL_PollEvent` hands out
before it returns 0, what the pull returns, and the window size reported by
`SDL_GetWindowSize`. -/
structure PumpInput where
  ui_stop : Bool
  events : List SDL_Event
  pull : Option GstSample
  win_w : Int
  win_h : Int
deriving DecidableEq, Repr

/-- What the libraries answer during one run of `play_video`. -/
structure PlayEnv where
  sdl_init_ok : Bool
  display_bounds : Int → SDL_Rect
  create_window : Option Nat
  create_context : Option Nat
  parse_launch : Option Nat
  texid : Nat
  inputs : List PumpInput
  image : Option StbImage
  fallback_texid : Nat
  fallback_win_w : Int
  fallback_win_h : Int

/-- State of one run of `play_video`: the object, the locals of lines 179-183,
and the trace so far. -/
structure Playback where
  app : VideoApp
  texid : Nat
  is_fullscreen : Bool
  first_frame : Bool
  video_width : Int
  video_height : Int
  trace : List Call
deriving DecidableEq, Repr

/-- `SDL_SetWindowFullscreen` on the window. -/
def SDL_Window.set_fullscreen (desktop : Bool) (w : SDL_Window) : SDL_Window :=
  { w with fullscreen_desktop := desktop }

/-- `SDL_SetWindowSize` on the window. -/
def SDL_Window.set_size (w h : Int) (win : SDL_Window) : SDL_Window :=
  { win with w := w, h := h }

/-- `SDL_SetWindowPosition` on the window. -/
def SDL_Window.set_position (x y : Int) (win : SDL_Window) : SDL_Window :=
  { win with x := x, y := y }

/-- Quad of lines 248-253 (drawn for every video frame). -/
def frame_quad : List QuadVertex :=
  [ { s := 0, t := 1, x := -1, y := -1 },
    { s := 1, t := 1, x := 1, y := -1 },
    { s := 1, t := 0, x := 1, y := 1 },
    { s := 0, t := 0, x := -1, y := 1 } ]

/-- Quad of lines 292-297 (drawn for the fallback image). -/
def fallback_quad : List QuadVertex :=
  [ { s := 0, t := 1, x := -1, y := -1 },
    { s := 1, t := 1, x := 1, y := -1 },
    { s := 1, t := 0, x := 1, y := 1 },
    { s := 0, t := 0, x := -1, y := 1 } ]

/-- Lines 202-210: the body of the `SDLK_f` branch. -/
def toggle_fullscreen (p : Playback) : Playback :=
  let fs := !p.is_fullscreen
  if fs then
    { p with
      is_fullscreen := fs
      app := { p.app with
        sdl_window := p.app.sdl_window.map (SDL_Window.set_fullscreen true) }
      trace := p.trace ++ [Call.SDL_SetWindowFullscreen true] }
  else
    { p with
      is_fullscreen := fs
      app := { p.app with
        sdl_window := p.app.sdl_window.map
          (fun w => ((w.set_fullscreen false).set_size 800 600).set_position 100 100) }
      trace := p.trace ++ [Call.SDL_SetWindowFullscreen false,
        Call.SDL_SetWindowSize 800 600, Call.SDL_SetWindowPosition 100 100] }

/-- Lines 195-211: what the loop does with one polled event. For a quit
event the store of line 197 and the call `button_play.set_active(false)` of
line 198 are recorded. With the toggle active that call emits `toggled` and
re-enters the handler on the worker thread (line 64), whose `join` then
addresses the calling thread itself; this nested run is not modelled, so the
state and trace after a quit event describe the run only up to line 198.
Statements about what follows the loop are made for inputs without quit
events (`no_quit_input`). -/
def handle_event (e : SDL_Event) (p : Playback) : Playback :=
  let p := { p with trace := p.trace ++ [Call.SDL_PollEvent (some e)] }
  match e with
  | .quit =>
    { p with
      app := { p.app with stop_playback := true, button_active := false }
      trace := p.trace ++ [Call.button_set_active false] }
  | .keydown sym => if sym = SDLK_f then toggle_fullscreen p else p
  | .other => p

/-- Lines 192-212: the inner `while (SDL_PollEvent(&e))` loop. -/
def drain_events (es : List SDL_Event) (p : Playback) : Playback :=
  let p := es.foldl (fun q e => handle_event e q) p
  { p with trace := p.trace ++ [Call.SDL_PollEvent none] }

/-- Lines 217-255: the branch taken when the pull returned a sample. -/
def render_sample (s : GstSample) (win_w win_h : Int) (p : Playback) : Playback :=
  let alloc := if p.first_frame then [Call.glTexImage2D s.width s.height none] else []
  { p with
    video_width := s.width
    video_height := s.height
    first_frame := false
    trace := p.trace ++ [Call.gst_buffer_map] ++ alloc ++
      [Call.glTexSubImage2D s.width s.height s.data,
       Call.gst_buffer_unmap, Call.gst_sample_unref,
       Call.SDL_GetWindowSize, Call.glViewport win_w win_h, Call.glClear,
       Call.glQuads frame_quad, Call.SDL_GL_SwapWindow] }

/-- Lines 192-260: one pass through the body of the loop. `sink` tells whether
the app sink handle is non-null; on a null handle the pull returns null. -/
def pump_iteration (sink : Bool) (i : PumpInput) (p : Playback) : Playback :=
  let p := drain_events i.events p
  let r := if sink then i.pull else none
  let p := { p with trace := p.trace ++ [Call.gst_app_sink_try_pull_sample 100000 r] }
  match r with
  | some s => render_sample s i.win_w i.win_h p
  | none => { p with trace := p.trace ++ [Call.SDL_Delay 10] }

/-- Line 190: `while (!stop_playback)`. Each input covers one test of the
condition and, when it is passed, one pass through the body. The second
component tells whether the loop has been left; when the inputs run out with
the flag clear the loop is still running. -/
def pump_loop (sink : Bool) : List PumpInput → Playback → Playback × Bool
  | [], p => (p, p.app.stop_playback)
  | i :: rest, p =>
    let p := { p with app := { p.app with stop_playback := p.app.stop_playback || i.ui_stop } }
    if p.app.stop_playback then (p, true)
    else pump_loop sink rest (pump_iteration sink i p)

/-- Lines 138-169: create the window and context unless `sdl_window` is
already set. The second component is false on the two early returns. -/
def ensure_window (env : PlayEnv) (p : Playback) : Playback × Bool :=
  match p.app.sdl_window with
  | some _ => (p, true)
  | none =>
    if env.sdl_init_ok then
      let b := env.display_bounds p.app.combo_display
      let tr := p.trace ++ [Call.SDL_Init,
        Call.SDL_GetDisplayBounds p.app.combo_display,
        Call.SDL_CreateWindow b.x b.y b.w b.h]
      match env.create_window with
      | none =>
        ({ p with trace := tr ++ [Call.cerr "SDL_CreateWindow failed: ", Call.SDL_Quit] }, false)
      | some h =>
        ({ p with
           app := { p.app with
             sdl_window := some
               { handle := h, fullscreen_desktop := true, x := b.x, y := b.y, w := b.w, h := b.h }
             sdl_glcontext := env.create_context }
           trace := tr ++ [Call.SDL_GL_CreateContext, Call.glEnable,
             Call.cout "SDL window created in playback thread.\n"] }, true)
    else
      ({ p with trace := p.trace ++ [Call.SDL_Init, Call.cerr "SDL_Init error\n"] }, false)

/-- Lines 172-188: build the pipeline, declare the locals, create the texture. -/
def open_pipeline (env : PlayEnv) (filepath : String) (p : Playback) : Playback :=
  { p with
    texid := env.texid
    is_fullscreen := true
    first_frame := true
    video_width := 0
    video_height := 0
    trace := p.trace ++ [Call.gst_parse_launch filepath, Call.gst_bin_get_by_name,
      Call.gst_element_set_state true, Call.glGenTextures, Call.glBindTexture env.texid,
      Call.glTexParameteri, Call.glTexParameteri] }

/-- Lines 272-304: the calls made when the fallback image has been decoded. -/
def fallback_calls (env : PlayEnv) (img : StbImage) : List Call :=
  [Call.glGenTextures, Call.glBindTexture env.fallback_texid,
   Call.glTexParameteri, Call.glTexParameteri,
   Call.glTexImage2D img.img_w img.img_h (some img.img_data),
   Call.SDL_GetWindowSize, Call.glViewport env.fallback_win_w env.fallback_win_h,
   Call.glClear, Call.glQuads fallback_quad, Call.SDL_GL_SwapWindow,
   Call.stbi_image_free, Call.glDeleteTextures env.fallback_texid,
   Call.cout "Fallback image displayed.\n"]

/-- Lines 264-308: the calls made after the loop has been left. -/
def finish_calls (env : PlayEnv) (p : Playback) : List Call :=
  [Call.gst_element_set_state false, Call.gst_object_unref, Call.glDeleteTextures p.texid] ++
  (if p.app.image_chooser = "" then []
   else Call.stbi_load p.app.image_chooser ::
     (match env.image with
      | some img => fallback_calls env img
      | none => [])) ++
  [Call.cout "Playback finished, leaving SDL window open.\n"]

/-- Lines 264-308 as a state change. -/
def finish_playback (env : PlayEnv) (p : Playback) : Playback :=
  { p with trace := p.trace ++ finish_calls env p }

/-- Line 136 and the state in which the run starts. -/
def play_video_entry (app : VideoApp) : Playback :=
  { app := { app with stop_playback := false }
    texid := 0
    is_fullscreen := true
    first_frame := true
    video_width := 0
    video_height := 0
    trace := [] }

/-- State in which the loop of line 190 is entered, when it is entered. -/
def pump_entry (env : PlayEnv) (filepath : String) (app : VideoApp) : Playback :=
  open_pipeline env filepath (ensure_window env (play_video_entry app)).1

/-- One run of `play_video (filepath)` on the object `app`. The second
component tells whether the function has returned; it is false when the
inputs of the environment run out while the loop is still running. -/
def play_video (env : PlayEnv) (filepath : String) (app : VideoApp) : Playback × Bool :=
  let r := ensure_window env (play_video_entry app)
  if r.2 then
    let l := pump_loop env.parse_launch.isSome env.inputs (open_pipeline env filepath r.1)
    if l.2 then (finish_playback env l.1, true) else (l.1, false)
  else (r.1, true)

/-! ## `on_play_toggled` -/

/-- How a run of the handler ends: it returns, it is blocked inside
`playback_thread.join()` (line 129) because the worker is still running, or
`std::terminate` has been called. -/
inductive HandlerStatus
  | returned
  | blocked_in_join
  | terminated
deriving DecidableEq, Repr

/-- Outcome of one run of the handler: the object, the calls made, the status. -/
structure Handled where
  app : VideoApp
  calls : List Call
  status : HandlerStatus
deriving DecidableEq, Repr

/-- Lines 121-131: the branch taken when `get_active` is false. Joining a
worker that has already returned completes at once and leaves the handle
not joinable; joining a running worker blocks. -/
def on_play_toggled_stop (app : VideoApp) : Handled :=
  let app := { app with button_label := "Start" }
  match app.playback_thread with
  | .not_joinable =>
    { app := app, calls := [Call.set_label "Start"], status := .returned }
  | .finished =>
    { app := { app with stop_playback := true, playback_thread := .not_joinable }
      calls := [Call.set_label "Start", Call.thread_join]
      status := .returned }
  | .running =>
    { app := { app with stop_playback := true }
      calls := [Call.set_label "Start", Call.thread_join]
      status := .blocked_in_join }

/-- The call `button_play.set_active(false)` made on the UI thread (line 109).
The handler is connected to `signal_toggled` (line 64): when the call changes
the state of the button the handler runs again inside it, and `get_active`
is then false. -/
def button_set_active_false (app : VideoApp) : Handled :=
  if app.button_active then
    let h := on_play_toggled_stop { app with button_active := false }
    { h with calls := Call.button_set_active false :: h.calls }
  else
    { app := app, calls := [Call.button_set_active false], status := .returned }

/-- Lines 99-132. The assignment of line 117 first constructs the new thread
and then move-assigns it to `playback_thread`, which calls `std::terminate`
when the handle is still joinable. -/
def on_play_toggled (app : VideoApp) : Handled :=
  if app.button_active then
    let app := { app with button_label := "Stop" }
    if app.file_chooser = "" then
      let h := button_set_active_false app
      { h with calls := [Call.set_label "Stop", Call.cerr "No file selected\n"] ++ h.calls }
    else
      let app := { app with stop_playback := false }
      let calls := [Call.set_label "Stop", Call.cout_selected_display app.combo_display,
        Call.thread_spawn app.file_chooser]
      match app.playback_thread with
      | .not_joinable =>
        { app := { app with playback_thread := .running }, calls := calls, status := .returned }
      | _ =>
        { app := app, calls := calls ++ [Call.std_terminate], status := .terminated }
  else on_play_toggled_stop app

/-! ## The two threads together -/

/-- Where the worker stands while its thread function is running: before
line 136, before line 138, or at the test of line 190. -/
inductive WorkerPc
  | line136
  | line138
  | line190
deriving DecidableEq, Repr

/-- The UI thread and the worker thread around the shared object `pb.app`.
`pb` also carries the locals and the trace of the worker, `filepath` is the
file name captured by the lambda of line 117, `sink` tells whether the app
sink is non-null. -/
structure Sys where
  pb : Playback
  wpc : WorkerPc
  filepath : String
  sink : Bool
  ui_blocked : Bool
  terminated : Bool
  ui_calls : List Call

/-- The system after the constructor: no worker, UI thread idle. The worker
fields are placeholders until a click starts a session. -/
def Sys.init (file image : String) (display : Int) : Sys :=
  { pb := play_video_entry (VideoApp.init file image display)
    wpc := .line136
    filepath := ""
    sink := false
    ui_blocked := false
    terminated := false
    ui_calls := [] }

/-- One scheduled step: the user changes the selections, the user clicks the
toggle button, the UI thread comes back from `join`, or the worker runs up to
its next access to `stop_playback`. -/
inductive Sched
  | choose (file image : String) (display : Int)
  | click
  | join_returns
  | worker (env : PlayEnv) (i : PumpInput)

/-- The worker runs from its current position to the next one. -/
def worker_step (env : PlayEnv) (i : PumpInput) (s : Sys) : Sys :=
  match s.wpc with
  | .line136 =>
    { s with pb := play_video_entry s.pb.app, wpc := .line138 }
  | .line138 =>
    let r := ensure_window env s.pb
    if r.2 then
      { s with pb := open_pipeline env s.filepath r.1
               sink := env.parse_launch.isSome
               wpc := .line190 }
    else
      { s with pb := { r.1 with app := { r.1.app with playback_thread := .finished } } }
  | .line190 =>
    if s.pb.app.stop_playback then
      let p := finish_playback env s.pb
      { s with pb := { p with app := { p.app with playback_thread := .finished } } }
    else
      { s with pb := pump_iteration s.sink i s.pb }

/-- The UI thread handles one click: GTK flips the toggle and emits `toggled`. -/
def click_step (s : Sys) : Sys :=
  let app := { s.pb.app with button_active := !s.pb.app.button_active }
  let h := on_play_toggled app
  let s1 := { s with pb := { s.pb with app := h.app }, ui_calls := s.ui_calls ++ h.calls }
  match h.status with
  | .terminated => { s1 with terminated := true }
  | .blocked_in_join => { s1 with ui_blocked := true }
  | .returned =>
    if app.playback_thread = .not_joinable ∧ h.app.playback_thread = .running then
      { s1 with wpc := .line136, filepath := app.file_chooser }
    else s1

/-- One step of the system. A terminated process does nothing; a UI thread
blocked in `join` handles nothing until the worker has returned; the worker
moves only while its thread function is running. -/
def Sys.step (s : Sys) : Sched → Sys
  | .choose file image display =>
    if s.terminated ∨ s.ui_blocked then s
    else { s with pb := { s.pb with app := { s.pb.app with
             file_chooser := file, image_chooser := image, combo_display := display } } }
  | .click =>
    if s.terminated ∨ s.ui_blocked then s else click_step s
  | .join_returns =>
    if s.terminated = false ∧ s.ui_blocked ∧ s.pb.app.playback_thread = .finished then
      { s with pb := { s.pb with app := { s.pb.app with playback_thread := .not_joinable } }
               ui_blocked := false }
    else s
  | .worker env i =>
    if s.terminated = false ∧ s.pb.app.playback_thread = .running then worker_step env i s
    else s

/-- The system after a schedule. -/
def Sys.run (s : Sys) (sched : List Sched) : Sys :=
  sched.foldl Sys.step s

/-- Values of `stop_playback` after each step of a schedule. -/
def Sys.flag_history (s : Sys) : List Sched → List Bool
  | [] => []
  | a :: rest => (s.step a).pb.app.stop_playback :: Sys.flag_history (s.step a) rest

/-! ## Reading traces -/

/-- Full texture allocation, `glTexImage2D`. -/
def Call.is_alloc : Call → Bool
  | .glTexImage2D _ _ _ => true
  | _ => false

/-- Sub-image upload, `glTexSubImage2D`. -/
def Call.is_upload : Call → Bool
  | .glTexSubImage2D _ _ _ => true
  | _ => false

/-- A pull, `gst_app_sink_try_pull_sample`. -/
def Call.is_pull : Call → Bool
  | .gst_app_sink_try_pull_sample _ _ => true
  | _ => false

/-- A buffer swap, `SDL_GL_SwapWindow`. -/
def Call.is_swap : Call → Bool
  | .SDL_GL_SwapWindow => true
  | _ => false

/-- The sample a call pulled, when it is a pull that returned one. -/
def Call.pulled_sample : Call → Option GstSample
  | .gst_app_sink_try_pull_sample _ r => r
  | _ => none

/-- The texture calls of a trace, in order. -/
def tex_calls (tr : List Call) : List Call :=
  tr.filter (fun c => c.is_alloc || c.is_upload)

/-- The samples pulled in a trace, in order. -/
def pulled (tr : List Call) : List GstSample :=
  tr.filterMap Call.pulled_sample

/-- The upload of one sample into the full texture region. -/
def upload_of (s : GstSample) : Call :=
  Call.glTexSubImage2D s.width s.height s.data

/-- Texture calls the specification prescribes for the samples of a session:
one allocation at the size of the first sample, then one upload per sample. -/
def tex_calls_for : List GstSample → List Call
  | [] => []
  | s :: rest => Call.glTexImage2D s.width s.height none :: upload_of s :: rest.map upload_of

/-- The calls an event of the inner loop can give rise to. -/
def Call.is_event_call : Call → Bool
  | .SDL_PollEvent _ => true
  | .button_set_active b => !b
  | .SDL_SetWindowFullscreen _ => true
  | .SDL_SetWindowSize w h => w = 800 && h = 600
  | .SDL_SetWindowPosition x y => x = 100 && y = 100
  | _ => false

/-- The calls a pass through the loop body can give rise to. -/
def Call.is_pump_call : Call → Bool
  | .gst_app_sink_try_pull_sample t _ => t = 100000
  | .gst_buffer_map => true
  | .glTexImage2D _ _ d => d = none
  | .glTexSubImage2D _ _ _ => true
  | .gst_buffer_unmap => true
  | .gst_sample_unref => true
  | .SDL_GetWindowSize => true
  | .glViewport _ _ => true
  | .glClear => true
  | .glQuads vs => vs = frame_quad
  | .SDL_GL_SwapWindow => true
  | .SDL_Delay ms => ms = 10
  | c => c.is_event_call

/-! ## Auxiliary definitions -/

/-- The calls of the branch of lines 217-255 for the sample `s`. -/
def sample_calls (first : Bool) (s : GstSample) (win_w win_h : Int) : List Call :=
  [Call.gst_buffer_map] ++
    (if first then [Call.glTexImage2D s.width s.height none] else []) ++
    [upload_of s, Call.gst_buffer_unmap, Call.gst_sample_unref,
     Call.SDL_GetWindowSize, Call.glViewport win_w win_h, Call.glClear,
     Call.glQuads frame_quad, Call.SDL_GL_SwapWindow]

/-- The calls of one pass through the loop body after the event drain. -/
def pull_calls (first : Bool) (r : Option GstSample) (win_w win_h : Int) : List Call :=
  Call.gst_app_sink_try_pull_sample 100000 r ::
    (match r with
     | some s => sample_calls first s win_w win_h
     | none => [Call.SDL_Delay 10])

/-- Texture calls expected from a state whose `first_frame` flag is `first`. -/
def tex_calls_from (first : Bool) (ss : List GstSample) : List Call :=
  if first then tex_calls_for ss else ss.map upload_of

/-- The calls lines 138-188 can give rise to. -/
def Call.is_prologue_call : Call → Bool
  | .SDL_Init => true
  | .SDL_GetDisplayBounds _ => true
  | .SDL_CreateWindow _ _ _ _ => true
  | .SDL_Quit => true
  | .SDL_GL_CreateContext => true
  | .glEnable => true
  | .cerr _ => true
  | .cout _ => true
  | .gst_parse_launch _ => true
  | .gst_bin_get_by_name => true
  | .gst_element_set_state _ => true
  | .glGenTextures => true
  | .glBindTexture _ => true
  | .glTexParameteri => true
  | _ => false

/-- An environment in which every library call succeeds; no loop input yet. -/
def env_ok : PlayEnv :=
  { sdl_init_ok := true
    display_bounds := fun _ => { x := 0, y := 0, w := 1920, h := 1080 }
    create_window := some 1
    create_context := some 2
    parse_launch := some 3
    texid := 7
    inputs := []
    image := some { img_w := 4, img_h := 4, img_data := 9 }
    fallback_texid := 8
    fallback_win_w := 1920
    fallback_win_h := 1080 }

/-- A pass with no event in which the pull returns nothing. -/
def input_miss : PumpInput :=
  { ui_stop := false, events := [], pull := none, win_w := 1920, win_h := 1080 }

/-- A pass with no event in which the pull returns a 2x2 sample. -/
def input_sample (data : Nat) : PumpInput :=
  { ui_stop := false, events := [], pull := some { width := 2, height := 2, data := data }
    win_w := 1920, win_h := 1080 }

/-- A pass in which the f key is pressed once and the pull returns nothing. -/
def input_key_f : PumpInput :=
  { ui_stop := false, events := [.keydown SDLK_f], pull := none, win_w := 1920, win_h := 1080 }

/-- A test of the loop condition before which the UI thread has set the flag. -/
def input_ui_stop : PumpInput :=
  { ui_stop := true, events := [], pull := none, win_w := 1920, win_h := 1080 }

/-- The object after the constructor with a video and a fallback image chosen. -/
def app_chosen : VideoApp := VideoApp.init "a.mp4" "f.png" 0

/-- A run in which `SDL_CreateWindow` fails, so that `play_video` returns early. -/
def env_no_window : PlayEnv := { env_ok with create_window := none }

/-- The state after a start whose worker has returned early on its own: the
toggle is still active, the handle is joinable, the flag is clear. -/
def sys_worker_done : Sys :=
  (Sys.init "a.mp4" "f.png" 0).run
    [.click, .worker env_no_window input_miss, .worker env_no_window input_miss]

/-- A state in which a worker exists and has not been joined, the toggle has
just been made active and a file is chosen. -/
def app_playing_start : VideoApp :=
  { app_chosen with button_active := true, playback_thread := .running }

/-- A stream of one sample followed by end-of-stream: every later pull
returns nothing. No stop is requested. -/
def env_eos : PlayEnv :=
  { env_ok with inputs := [input_sample 5, input_miss, input_miss, input_miss] }

/-- A run in which `SDL_GL_CreateContext` returns null. -/
def env_no_context : PlayEnv :=
  { env_ok with create_context := none, inputs := [input_miss, input_ui_stop] }

/-- A run in which `gst_parse_launch` returns null, on an object whose
window already exists. -/
def env_no_pipeline : PlayEnv :=
  { env_ok with parse_launch := none, inputs := [input_key_f, input_ui_stop] }

/-- The object after one complete session on `env_ok` (stopped at once). -/
def app_after_session : VideoApp :=
  (play_video { env_ok with inputs := [input_ui_stop] } "a.mp4" app_chosen).1.app

/-- The schedule of the lost stop request: start, stop at once, then the
worker runs line 136, the set-up, and two passes of the loop. -/
def sched_lost_stop : List Sched :=
  [.click, .click, .worker env_ok input_miss, .worker env_ok input_miss,
   .worker env_ok input_miss, .worker env_ok input_miss]

/-- Two sessions on the same object: in the first the f key is pressed once
and the session is stopped; in the second the f key is pressed once. -/
def env_key_then_stop : PlayEnv := { env_ok with inputs := [input_key_f, input_ui_stop] }

/-- The object after the first of the two sessions. -/
def app_left_windowed : VideoApp := (play_video env_key_then_stop "a.mp4" app_chosen).1.app

/-- The members the loop never writes agree, and so does the window handle. -/
def VideoApp.same_outside_pump (a b : VideoApp) : Prop :=
  b.button_label = a.button_label ∧ b.file_chooser = a.file_chooser ∧
  b.image_chooser = a.image_chooser ∧ b.combo_display = a.combo_display ∧
  b.playback_thread = a.playback_thread ∧ b.sdl_glcontext = a.sdl_glcontext ∧
  b.sdl_window.map (fun w => w.handle) = a.sdl_window.map (fun w => w.handle)

/-- No stop request from the UI thread and no quit event in any input. -/
def no_stop_input (ins : List PumpInput) : Prop :=
  ∀ i ∈ ins, i.ui_stop = false ∧ SDL_Event.quit ∉ i.events

/-- The window exists already or both `SDL_Init` and `SDL_CreateWindow` succeed. -/
def window_available (env : PlayEnv) (app : VideoApp) : Prop :=
  app.sdl_window.isSome = true ∨ (env.sdl_init_ok = true ∧ env.create_window.isSome = true)

/-- No quit event in any input. -/
def no_quit_input (ins : List PumpInput) : Prop :=
  ∀ i ∈ ins, SDL_Event.quit ∉ i.events

instance (ins : List PumpInput) : Decidable (no_quit_input ins) := by
  unfold no_quit_input
  infer_instance

instance (ins : List PumpInput) : Decidable (no_stop_input ins) := by
  unfold no_stop_input
  infer_instance

instance (env : PlayEnv) (app : VideoApp) : Decidable (window_available env app) := by
  unfold window_available
  infer_instance

/-- The calls after the loop when a fallback image is chosen and decodes. -/
def fallback_tail (env : PlayEnv) (texid : Nat) (path : String) (img : StbImage) : List Call :=
  [Call.gst_element_set_state false, Call.gst_object_unref, Call.glDeleteTextures texid,
   Call.stbi_load path] ++ fallback_calls env img ++
  [Call.cout "Playback finished, leaving SDL window open.\n"]

/-- A stream of one sample and one miss, after which the UI thread requests
the stop. -/
def env_stopped : PlayEnv :=
  { env_ok with inputs := [input_sample 5, input_miss, input_ui_stop] }

/-- The object after a list of complete runs of `play_video`, one after the
other, each with its own environment and file. -/
def play_sessions : List (PlayEnv × String) → VideoApp → VideoApp
  | [], app => app
  | s :: rest, app => play_sessions rest (play_video s.1 s.2 app).1.app

/-- The calls that set up SDL or create a window or a context. -/
def Call.is_surface_creation : Call → Bool
  | .SDL_Init => true
  | .SDL_GetDisplayBounds _ => true
  | .SDL_CreateWindow _ _ _ _ => true
  | .SDL_GL_CreateContext => true
  | .SDL_Quit => true
  | _ => false

/-- The same run state with another display selected in the combo box. -/
def Playback.with_display (d : Int) (p : Playback) : Playback :=
  { p with app := { p.app with combo_display := d } }

/-- The step is not a worker step that polls a quit event. -/
def Sched.no_quit : Sched → Prop
  | .worker _ i => SDL_Event.quit ∉ i.events
  | _ => True

instance (a : Sched) : Decidable a.no_quit := by
  cases a <;> unfold Sched.no_quit <;> infer_instance

/-- The process is alive; while the UI thread is free the toggle is active
exactly when the worker handle is joinable; while it is blocked in `join` the
toggle is inactive and the handle joinable. -/
def Sys.toggle_matches_handle (s : Sys) : Prop :=
  s.terminated = false ∧
  (s.ui_blocked = false → s.pb.app.button_active = s.pb.app.playback_thread.joinable) ∧
  (s.ui_blocked = true →
    s.pb.app.button_active = false ∧ s.pb.app.playback_thread.joinable = true)

/-- Two sessions one after the other, driven by clicks alone: start, the
worker sets up and runs a pass, stop, the worker sees the flag and returns,
`join` returns, start again. -/
def sched_two_sessions : List Sched :=
  [.click, .worker env_ok input_miss, .worker env_ok input_miss, .worker env_ok input_miss,
   .click, .worker env_ok input_miss, .join_returns, .click]

/-! ## Lemmas on the loop -/

theorem handle_event_trace (e : SDL_Event) (p : Playback) :
    ∃ new, (handle_event e p).trace = p.trace ++ new ∧
      (∀ c ∈ new, c.is_event_call = true) ∧
      (handle_event e p).first_frame = p.first_frame := by
  cases e with
  | quit =>
    exact ⟨[Call.SDL_PollEvent (some .quit), Call.button_set_active false],
      by simp [handle_event], by simp [Call.is_event_call], rfl⟩
  | other =>
    exact ⟨[Call.SDL_PollEvent (some .other)], by simp [handle_event],
      by simp [Call.is_event_call], rfl⟩
  | keydown sym =>
    by_cases hs : sym = SDLK_f
    · by_cases hf : p.is_fullscreen = true
      · exact ⟨[Call.SDL_PollEvent (some (.keydown sym)), Call.SDL_SetWindowFullscreen false,
          Call.SDL_SetWindowSize 800 600, Call.SDL_SetWindowPosition 100 100],
          by simp [handle_event, toggle_fullscreen, hs, hf],
          by simp [Call.is_event_call],
          by simp [handle_event, toggle_fullscreen, hs, hf]⟩
      · exact ⟨[Call.SDL_PollEvent (some (.keydown sym)), Call.SDL_SetWindowFullscreen true],
          by simp [handle_event, toggle_fullscreen, hs, hf],
          by simp [Call.is_event_call],
          by simp [handle_event, toggle_fullscreen, hs, hf]⟩
    · exact ⟨[Call.SDL_PollEvent (some (.keydown sym))], by simp [handle_event, hs],
        by simp [Call.is_event_call], by simp [handle_event, hs]⟩

theorem foldl_handle_event_trace (es : List SDL_Event) (p : Playback) :
    ∃ new, (es.foldl (fun q e => handle_event e q) p).trace = p.trace ++ new ∧
      (∀ c ∈ new, c.is_event_call = true) ∧
      (es.foldl (fun q e => handle_event e q) p).first_frame = p.first_frame := by
  induction es generalizing p with
  | nil => exact ⟨[], by simp, by simp, rfl⟩
  | cons e rest ih =>
    obtain ⟨n1, h1, c1, f1⟩ := handle_event_trace e p
    obtain ⟨n2, h2, c2, f2⟩ := ih (handle_event e p)
    refine ⟨n1 ++ n2, ?_, ?_, ?_⟩
    · simp only [List.foldl_cons, h2, h1, List.append_assoc]
    · intro c hc
      rcases List.mem_append.mp hc with h | h
      · exact c1 c h
      · exact c2 c h
    · simp only [List.foldl_cons, f2, f1]

theorem drain_events_trace (es : List SDL_Event) (p : Playback) :
    ∃ new, (drain_events es p).trace = p.trace ++ new ∧
      (∀ c ∈ new, c.is_event_call = true) ∧
      (drain_events es p).first_frame = p.first_frame := by
  obtain ⟨n, h, c, f⟩ := foldl_handle_event_trace es p
  refine ⟨n ++ [Call.SDL_PollEvent none], ?_, ?_, ?_⟩
  · simp [drain_events, h]
  · intro x hx
    rcases List.mem_append.mp hx with h | h
    · exact c x h
    · simp at h; subst h; rfl
  · simpa [drain_events] using f

theorem event_call_not_tex (c : Call) (h : c.is_event_call = true) :
    (c.is_alloc || c.is_upload) = false ∧ c.pulled_sample = none ∧ c.is_pull = false ∧
      c.is_swap = false ∧ c.is_pump_call = true := by
  cases c <;> simp_all [Call.is_event_call, Call.is_alloc, Call.is_upload, Call.pulled_sample,
    Call.is_pull, Call.is_swap, Call.is_pump_call]

theorem tex_calls_event (new : List Call) (h : ∀ c ∈ new, c.is_event_call = true) :
    tex_calls new = [] ∧ pulled new = [] := by
  constructor
  · simp only [tex_calls, List.filter_eq_nil_iff]
    intro c hc
    simp [(event_call_not_tex c (h c hc)).1]
  · simp only [pulled, List.filterMap_eq_nil_iff]
    intro c hc
    exact (event_call_not_tex c (h c hc)).2.1

theorem tex_calls_append (a b : List Call) : tex_calls (a ++ b) = tex_calls a ++ tex_calls b := by
  simp [tex_calls]

theorem pulled_append (a b : List Call) : pulled (a ++ b) = pulled a ++ pulled b := by
  simp [pulled]

theorem pump_iteration_trace (sink : Bool) (i : PumpInput) (p : Playback) :
    ∃ ev, (∀ c ∈ ev, c.is_event_call = true) ∧
      (pump_iteration sink i p).trace =
        p.trace ++ (ev ++ pull_calls p.first_frame (if sink then i.pull else none) i.win_w i.win_h) ∧
      (pump_iteration sink i p).first_frame =
        (p.first_frame && (if sink then i.pull else none).isNone) := by
  obtain ⟨ev, h, c, f⟩ := drain_events_trace i.events p
  refine ⟨ev, c, ?_, ?_⟩
  · cases hr : (if sink then i.pull else none) with
    | none => simp [pump_iteration, hr, h, pull_calls]
    | some s =>
      simp [pump_iteration, hr, h, pull_calls, render_sample, sample_calls, f, upload_of]
  · cases hr : (if sink then i.pull else none) with
    | none => simp [pump_iteration, hr, f]
    | some s => simp [pump_iteration, hr, render_sample]

theorem pull_calls_facts (first : Bool) (r : Option GstSample) (w h : Int) :
    (∀ c ∈ pull_calls first r w h, c.is_pump_call = true) ∧
    pulled (pull_calls first r w h) = r.toList ∧
    ((pull_calls first r w h).filter Call.is_pull).length = 1 ∧
    tex_calls (pull_calls first r w h) =
      (match r with
       | none => []
       | some s => if first then tex_calls_for [s] else [upload_of s]) := by
  cases r with
  | none =>
    simp [pull_calls, Call.is_pump_call, pulled, Call.pulled_sample, Call.is_pull, tex_calls,
      Call.is_alloc, Call.is_upload]
  | some s =>
    cases first <;>
    simp [pull_calls, sample_calls, Call.is_pump_call, pulled, Call.pulled_sample, Call.is_pull,
      tex_calls, Call.is_alloc, Call.is_upload, upload_of, tex_calls_for, Call.is_event_call]

theorem tex_calls_from_cons (first : Bool) (s : GstSample) (ss : List GstSample) :
    tex_calls_from first (s :: ss) =
      (if first then tex_calls_for [s] else [upload_of s]) ++ tex_calls_from false ss := by
  cases first <;> simp [tex_calls_from, tex_calls_for]

theorem pump_loop_trace (sink : Bool) (ins : List PumpInput) (p : Playback) :
    ∃ new k, k ≤ ins.length ∧
      (pump_loop sink ins p).1.trace = p.trace ++ new ∧
      (∀ c ∈ new, c.is_pump_call = true) ∧
      pulled new = (ins.take k).filterMap (fun i => if sink then i.pull else none) ∧
      (new.filter Call.is_pull).length = k ∧
      tex_calls new = tex_calls_from p.first_frame (pulled new) := by
  induction ins generalizing p with
  | nil =>
    refine ⟨[], 0, le_refl _, by simp [pump_loop], by simp, by simp [pulled], by simp, ?_⟩
    cases p.first_frame <;> simp [tex_calls, pulled, tex_calls_from, tex_calls_for]
  | cons i rest ih =>
    by_cases hstop : (p.app.stop_playback || i.ui_stop) = true
    · refine ⟨[], 0, Nat.zero_le _, by simp [pump_loop, hstop], by simp, by simp [pulled],
        by simp, ?_⟩
      cases p.first_frame <;> simp [tex_calls, pulled, tex_calls_from, tex_calls_for]
    · let p1 : Playback :=
        { p with app := { p.app with stop_playback := p.app.stop_playback || i.ui_stop } }
      obtain ⟨ev, hev, htr, hff⟩ := pump_iteration_trace sink i p1
      obtain ⟨new, k, hk, hnew, hcalls, hpulled, hcount, htex⟩ := ih (pump_iteration sink i p1)
      obtain ⟨q1, q2, q3, q4⟩ :=
        pull_calls_facts p.first_frame (if sink then i.pull else none) i.win_w i.win_h
      have hloop : pump_loop sink (i :: rest) p = pump_loop sink rest (pump_iteration sink i p1) := by
        simp only [pump_loop]
        rw [if_neg hstop]
      have e1 := tex_calls_event ev hev
      refine ⟨ev ++ pull_calls p.first_frame (if sink then i.pull else none) i.win_w i.win_h ++ new,
        k + 1, by simpa using hk, ?_, ?_, ?_, ?_, ?_⟩
      · rw [hloop, hnew, htr]; simp [p1]
      · intro c hc
        rcases List.mem_append.mp hc with h | h
        · rcases List.mem_append.mp h with h | h
          · exact (event_call_not_tex c (hev c h)).2.2.2.2
          · exact q1 c h
        · exact hcalls c h
      · rw [pulled_append, pulled_append, e1.2, q2, hpulled]
        cases hr : (if sink then i.pull else none) <;> simp [List.filterMap_cons, hr]
      · have hz : (ev.filter Call.is_pull).length = 0 := by
          simp only [List.length_eq_zero, List.filter_eq_nil_iff]
          intro c hc
          simp [(event_call_not_tex c (hev c hc)).2.2.1]
        simp only [List.filter_append, List.length_append, hz, q3, hcount]
        omega
      · rw [tex_calls_append, tex_calls_append, e1.1, q4, htex, hff, pulled_append, pulled_append,
          e1.2, q2]
        cases hr : (if sink then i.pull else none) with
        | none => simp [p1]
        | some s => simp [p1, tex_calls_from_cons]

/-! ## Lemmas on the whole run -/

theorem ensure_window_new (env : PlayEnv) (p : Playback) :
    ∃ new, (ensure_window env p).1.trace = p.trace ++ new ∧
      ∀ c ∈ new, c.is_prologue_call = true := by
  cases hw : p.app.sdl_window with
  | some w => exact ⟨[], by simp [ensure_window, hw], by simp⟩
  | none =>
    cases hi : env.sdl_init_ok with
    | false =>
      exact ⟨[Call.SDL_Init, Call.cerr "SDL_Init error\n"], by simp [ensure_window, hw, hi],
        by simp [Call.is_prologue_call]⟩
    | true =>
      cases hcw : env.create_window with
      | none =>
        exact ⟨_, by simp only [ensure_window, hw, hi, hcw, if_true, List.append_assoc]; rfl,
          by simp [Call.is_prologue_call]⟩
      | some h =>
        exact ⟨_, by simp only [ensure_window, hw, hi, hcw, if_true, List.append_assoc]; rfl,
          by simp [Call.is_prologue_call]⟩

theorem ensure_window_trace (env : PlayEnv) (app : VideoApp) :
    ∀ c ∈ (ensure_window env (play_video_entry app)).1.trace, c.is_prologue_call = true := by
  obtain ⟨new, h, hc⟩ := ensure_window_new env (play_video_entry app)
  rw [h]
  simpa [play_video_entry] using hc

theorem pump_entry_trace (env : PlayEnv) (filepath : String) (app : VideoApp) :
    ∀ c ∈ (pump_entry env filepath app).trace, c.is_prologue_call = true := by
  intro c hc
  simp only [pump_entry, open_pipeline, List.mem_append] at hc
  rcases hc with h | h
  · exact ensure_window_trace env app c h
  · simp at h
    rcases h with h | h | h | h | h | h <;> subst h <;> rfl

theorem prologue_call_facts (c : Call) (h : c.is_prologue_call = true) :
    (c.is_alloc || c.is_upload) = false ∧ c.pulled_sample = none ∧ c.is_pull = false ∧
      c.is_swap = false ∧ ∀ vs, c ≠ Call.glQuads vs := by
  cases c <;> simp_all [Call.is_prologue_call, Call.is_alloc, Call.is_upload, Call.pulled_sample,
    Call.is_pull, Call.is_swap]

theorem pump_entry_first_frame (env : PlayEnv) (filepath : String) (app : VideoApp) :
    (pump_entry env filepath app).first_frame = true := rfl

theorem pump_entry_quiet (env : PlayEnv) (filepath : String) (app : VideoApp) :
    tex_calls (pump_entry env filepath app).trace = [] ∧
    pulled (pump_entry env filepath app).trace = [] ∧
    (pump_entry env filepath app).trace.filter Call.is_pull = [] := by
  refine ⟨?_, ?_, ?_⟩
  · simp only [tex_calls, List.filter_eq_nil_iff]
    intro c hc
    simp [(prologue_call_facts c (pump_entry_trace env filepath app c hc)).1]
  · simp only [pulled, List.filterMap_eq_nil_iff]
    intro c hc
    exact (prologue_call_facts c (pump_entry_trace env filepath app c hc)).2.1
  · simp only [List.filter_eq_nil_iff]
    intro c hc
    simp [(prologue_call_facts c (pump_entry_trace env filepath app c hc)).2.2.1]

theorem alloc_count_tex_calls_for (ss : List GstSample) :
    ((tex_calls_for ss).filter Call.is_alloc).length ≤ 1 := by
  cases ss with
  | nil => simp [tex_calls_for]
  | cons s rest =>
    have h : (rest.map upload_of).filter Call.is_alloc = [] := by
      simp only [List.filter_eq_nil_iff, List.mem_map]
      rintro c ⟨s, -, rfl⟩
      simp [upload_of, Call.is_alloc]
    simp [tex_calls_for, upload_of, Call.is_alloc, List.filter_cons] at h ⊢

theorem filter_alloc_tex_calls (tr : List Call) :
    tr.filter Call.is_alloc = (tex_calls tr).filter Call.is_alloc := by
  simp only [tex_calls, List.filter_filter]
  congr 1
  funext c
  cases c <;> simp [Call.is_alloc, Call.is_upload]

theorem quads_in_pump_trace (env : PlayEnv) (filepath : String) (app : VideoApp)
    (sink : Bool) (ins : List PumpInput) (vs : List QuadVertex)
    (h : Call.glQuads vs ∈ (pump_loop sink ins (pump_entry env filepath app)).1.trace) :
    vs = frame_quad := by
  obtain ⟨new, k, -, htr, hcalls, -, -, -⟩ := pump_loop_trace sink ins (pump_entry env filepath app)
  rw [htr] at h
  rcases List.mem_append.mp h with h | h
  · exact absurd rfl ((prologue_call_facts _ (pump_entry_trace env filepath app _ h)).2.2.2.2 vs)
  · simpa [Call.is_pump_call, Call.is_event_call] using hcalls _ h

theorem quads_in_finish_calls (env : PlayEnv) (p : Playback) (vs : List QuadVertex)
    (h : Call.glQuads vs ∈ finish_calls env p) : vs = fallback_quad := by
  unfold finish_calls at h
  by_cases hi : p.app.image_chooser = ""
  · simp [hi] at h
  · cases himg : env.image with
    | none => simp [hi, himg] at h
    | some img => simpa [hi, himg, fallback_calls] using h

/-! ## Texture calls and the quad -/

/-- C1: in one run of the pump loop of `play_video`, whatever the pulls
return, the texture calls of the trace are exactly those prescribed for the
pulled samples: none while nothing has been pulled, else one `glTexImage2D`
at the size of the first pulled sample followed by one `glTexSubImage2D` per
pulled sample, the first of them for the first sample. So there is at most one
allocation, it precedes every upload, and later samples upload without
allocating. The pulls of the trace are the pulls of the inputs consumed. -/
theorem pump_allocates_on_first_sample_only (env : PlayEnv) (filepath : String)
    (app : VideoApp) (sink : Bool) (ins : List PumpInput) :
    tex_calls (pump_loop sink ins (pump_entry env filepath app)).1.trace =
      tex_calls_for (pulled (pump_loop sink ins (pump_entry env filepath app)).1.trace) ∧
    ((pump_loop sink ins (pump_entry env filepath app)).1.trace.filter Call.is_alloc).length ≤ 1 ∧
    ∃ k, k ≤ ins.length ∧
      ((pump_loop sink ins (pump_entry env filepath app)).1.trace.filter Call.is_pull).length = k ∧
      pulled (pump_loop sink ins (pump_entry env filepath app)).1.trace =
        (ins.take k).filterMap (fun i => if sink then i.pull else none) := by
  obtain ⟨new, k, hk, htr, -, hpulled, hcount, htex⟩ :=
    pump_loop_trace sink ins (pump_entry env filepath app)
  obtain ⟨q1, q2, q3⟩ := pump_entry_quiet env filepath app
  have h1 : tex_calls (pump_loop sink ins (pump_entry env filepath app)).1.trace =
      tex_calls_for (pulled (pump_loop sink ins (pump_entry env filepath app)).1.trace) := by
    rw [htr, tex_calls_append, pulled_append, q1, q2, htex, pump_entry_first_frame]
    simp [tex_calls_from]
  refine ⟨h1, ?_, k, hk, ?_, ?_⟩
  · rw [filter_alloc_tex_calls, h1]
    exact alloc_count_tex_calls_for _
  · rw [htr, List.filter_append, q3]
    simpa using hcount
  · rw [htr, pulled_append, q2]
    simpa using hpulled

/-- C10: every quad drawn by a run of `play_video`, for a video frame or for
the fallback image, is the same list of four vertices; the vertices are the
four corners of the square with coordinates -1 and 1, each carrying the
texture coordinate (s, t) = ((x + 1) / 2, (1 - y) / 2), so the top edge (y = 1)
samples t = 0 and the bottom edge (y = -1) samples t = 1. -/
theorem quad_mapping_not_flipped :
    (∀ (env : PlayEnv) (filepath : String) (app : VideoApp) (vs : List QuadVertex),
      Call.glQuads vs ∈ (play_video env filepath app).1.trace →
        vs = frame_quad ∨ vs = fallback_quad) ∧
    frame_quad = fallback_quad ∧
    frame_quad.map (fun v => (v.x, v.y)) = [(-1, -1), (1, -1), (1, 1), (-1, 1)] ∧
    (∀ v ∈ frame_quad,
      ((v.s : ℚ), (v.t : ℚ)) = (((v.x : ℚ) + 1) / 2, (1 - (v.y : ℚ)) / 2)) ∧
    (∀ v ∈ frame_quad, (v.y = 1 → v.t = 0) ∧ (v.y = -1 → v.t = 1)) := by
  refine ⟨?_, rfl, rfl, ?_, ?_⟩
  · intro env filepath app vs h
    unfold play_video at h
    by_cases hr : (ensure_window env (play_video_entry app)).2 = true
    · simp only [hr, if_true] at h
      by_cases hl : (pump_loop env.parse_launch.isSome env.inputs
          (open_pipeline env filepath (ensure_window env (play_video_entry app)).1)).2 = true
      · simp only [hl, if_true, finish_playback] at h
        rcases List.mem_append.mp h with h | h
        · exact Or.inl (quads_in_pump_trace env filepath app _ _ vs h)
        · exact Or.inr (quads_in_finish_calls env _ vs h)
      · simp only [hl] at h
        exact Or.inl (quads_in_pump_trace env filepath app _ _ vs h)
    · simp only [hr] at h
      exact absurd rfl
        ((prologue_call_facts _ (ensure_window_trace env app _ h)).2.2.2.2 vs)
  · intro v hv
    simp only [frame_quad, List.mem_cons, List.mem_singleton, List.not_mem_nil, or_false] at hv
    rcases hv with h | h | h | h <;> subst h <;> norm_num
  · intro v hv
    simp only [frame_quad, List.mem_cons, List.mem_singleton, List.not_mem_nil, or_false] at hv
    rcases hv with h | h | h | h <;> subst h <;> simp

/-! ## The handler and the runs that fail -/

/-- C2: from an Idle state, the handler run with the toggle active and an
empty file name returns with the toggle cleared and no worker handle to join,
writes the message `No file selected` to `cerr`, constructs no thread, makes
no call other than label changes, the message, `set_active(false)` and a
`join`, and leaves the value of `stop_playback`, `sdl_window` and
`sdl_glcontext` as they were. Idle is: no joinable worker handle, or the
handle of a worker that has already returned after the flag was set. In the
first case the calls are exactly the two label changes, the message and
`set_active(false)`, and only the toggle and the label change. -/
theorem empty_path_start_stays_idle (app : VideoApp)
    (hidle : app.playback_thread = .not_joinable ∨
      (app.playback_thread = .finished ∧ app.stop_playback = true))
    (hactive : app.button_active = true) (hfile : app.file_chooser = "") :
    (on_play_toggled app).status = .returned ∧
    (on_play_toggled app).app.playback_thread = .not_joinable ∧
    (on_play_toggled app).app.button_active = false ∧
    Call.cerr "No file selected\n" ∈ (on_play_toggled app).calls ∧
    (∀ f, Call.thread_spawn f ∉ (on_play_toggled app).calls) ∧
    (∀ c ∈ (on_play_toggled app).calls,
      c = Call.set_label "Stop" ∨ c = Call.cerr "No file selected\n" ∨
      c = Call.button_set_active false ∨ c = Call.set_label "Start" ∨ c = Call.thread_join) ∧
    (on_play_toggled app).app.stop_playback = app.stop_playback ∧
    (on_play_toggled app).app.sdl_window = app.sdl_window ∧
    (on_play_toggled app).app.sdl_glcontext = app.sdl_glcontext ∧
    (app.playback_thread = .not_joinable →
      (on_play_toggled app).calls =
        [Call.set_label "Stop", Call.cerr "No file selected\n",
         Call.button_set_active false, Call.set_label "Start"] ∧
      (on_play_toggled app).app =
        { app with button_active := false, button_label := "Start" }) := by
  rcases hidle with ht | ⟨ht, hs⟩
  · simp [on_play_toggled, button_set_active_false, on_play_toggled_stop, ht, hactive, hfile]
  · simp [on_play_toggled, button_set_active_false, on_play_toggled_stop, ht, hs, hactive,
      hfile]

/-- A start with no file chosen on the object right after the constructor. -/
theorem empty_path_start_stays_idle_witness :
    (on_play_toggled { VideoApp.init "" "" 0 with button_active := true }).status = .returned ∧
    (on_play_toggled { VideoApp.init "" "" 0 with button_active := true }).app.stop_playback
      = false :=
  ⟨(empty_path_start_stays_idle { VideoApp.init "" "" 0 with button_active := true }
      (Or.inl rfl) rfl rfl).1,
   (empty_path_start_stays_idle { VideoApp.init "" "" 0 with button_active := true }
      (Or.inl rfl) rfl rfl).2.2.2.2.2.2.1⟩

/-- Counterexample to C7 as stated: after a start whose worker has returned on
its own (window creation failed), the controller has no running session, yet
the stop request that follows changes the stop flag from false to true and
joins the handle. -/
theorem stop_after_finished_worker_changes_state :
    sys_worker_done.pb.app.playback_thread = .finished ∧
    sys_worker_done.pb.app.stop_playback = false ∧
    sys_worker_done.ui_blocked = false ∧
    (sys_worker_done.step .click).pb.app.stop_playback = true ∧
    (sys_worker_done.step .click).pb.app.playback_thread = .not_joinable ∧
    (on_play_toggled { sys_worker_done.pb.app with button_active := false }).app.stop_playback
      ≠ sys_worker_done.pb.app.stop_playback ∧
    (on_play_toggled { sys_worker_done.pb.app with button_active := false }).app.playback_thread
      ≠ sys_worker_done.pb.app.playback_thread := by
  decide

/-- C7 as amended: a stop request (handler run with the toggle inactive) while
no worker is running returns without an error message and leaves `sdl_window`
and `sdl_glcontext` unchanged. When no worker handle is joinable (before any
session, or after the previous worker was joined) it also leaves
`stop_playback` and the handle unchanged and calls no `join`. When the
previous worker has returned on its own and has not been joined, it sets
`stop_playback` and joins the handle, which leaves it not joinable. -/
theorem stop_while_idle (app : VideoApp) (hactive : app.button_active = false)
    (hidle : app.playback_thread ≠ .running) :
    (on_play_toggled app).status = .returned ∧
    (∀ m, Call.cerr m ∉ (on_play_toggled app).calls) ∧
    (on_play_toggled app).app.sdl_window = app.sdl_window ∧
    (on_play_toggled app).app.sdl_glcontext = app.sdl_glcontext ∧
    (on_play_toggled app).app.playback_thread = .not_joinable ∧
    (app.playback_thread = .not_joinable →
      (on_play_toggled app).app.stop_playback = app.stop_playback ∧
      (on_play_toggled app).calls = [Call.set_label "Start"] ∧
      (on_play_toggled app).app = { app with button_label := "Start" }) ∧
    (app.playback_thread = .finished →
      (on_play_toggled app).app.stop_playback = true ∧
      (on_play_toggled app).calls = [Call.set_label "Start", Call.thread_join] ∧
      (on_play_toggled app).app =
        { app with button_label := "Start", stop_playback := true,
                   playback_thread := .not_joinable }) := by
  cases ht : app.playback_thread with
  | running => exact absurd ht hidle
  | not_joinable => simp [on_play_toggled, on_play_toggled_stop, hactive, ht]
  | finished => simp [on_play_toggled, on_play_toggled_stop, hactive, ht]

/-- A stop request on the object right after the constructor. -/
theorem stop_while_idle_witness :
    (on_play_toggled (VideoApp.init "a.mp4" "f.png" 0)).status = .returned ∧
    (on_play_toggled (VideoApp.init "a.mp4" "f.png" 0)).app.sdl_window = none :=
  ⟨(stop_while_idle (VideoApp.init "a.mp4" "f.png" 0) rfl (by decide)).1,
   (stop_while_idle (VideoApp.init "a.mp4" "f.png" 0) rfl (by decide)).2.2.1⟩

/-- Counterexample to C3 as stated: with a worker that has not been joined, a
start request with a non-empty file name writes no error message, constructs
a second thread and does not return normally (the assignment over the
joinable handle ends in `std::terminate`). -/
theorem start_while_playing_not_rejected :
    app_playing_start.playback_thread.joinable = true ∧
    app_playing_start.file_chooser ≠ "" ∧
    (∀ m, Call.cerr m ∉ (on_play_toggled app_playing_start).calls) ∧
    Call.thread_spawn "a.mp4" ∈ (on_play_toggled app_playing_start).calls ∧
    (on_play_toggled app_playing_start).status = .terminated ∧
    (on_play_toggled app_playing_start).calls =
      [Call.set_label "Stop", Call.cout_selected_display 0, Call.thread_spawn "a.mp4",
       Call.std_terminate] := by
  refine ⟨by decide, by decide, ?_, by decide, by decide, by decide⟩
  intro m
  have h : (on_play_toggled app_playing_start).calls =
      [Call.set_label "Stop", Call.cout_selected_display 0, Call.thread_spawn "a.mp4",
       Call.std_terminate] := by decide
  rw [h]
  simp

/-- Counterexample to C4 as stated: after the only sample of the stream, with
a fallback image chosen and decodable and no stop request, the loop is still
running three passes later, has pulled once in each of them, and no fallback
has been loaded or presented. -/
theorem eos_does_not_leave_loop :
    app_chosen.image_chooser ≠ "" ∧
    env_eos.image.isSome = true ∧
    (play_video env_eos "a.mp4" app_chosen).2 = false ∧
    (play_video env_eos "a.mp4" app_chosen).1.app.stop_playback = false ∧
    ((play_video env_eos "a.mp4" app_chosen).1.trace.filter Call.is_pull).length = 4 ∧
    pulled (play_video env_eos "a.mp4" app_chosen).1.trace = [{ width := 2, height := 2, data := 5 }] ∧
    Call.glTexImage2D 4 4 (some 9) ∉ (play_video env_eos "a.mp4" app_chosen).1.trace ∧
    Call.stbi_load "f.png" ∉ (play_video env_eos "a.mp4" app_chosen).1.trace ∧
    (play_video env_eos "a.mp4" app_chosen).1.trace.drop 25 =
      [Call.SDL_PollEvent none, Call.gst_app_sink_try_pull_sample 100000 none, Call.SDL_Delay 10,
       Call.SDL_PollEvent none, Call.gst_app_sink_try_pull_sample 100000 none, Call.SDL_Delay 10,
       Call.SDL_PollEvent none, Call.gst_app_sink_try_pull_sample 100000 none, Call.SDL_Delay 10] := by
  decide

/-- C5, the code at the failing inputs. When context creation fails the run
goes on with a null context: it creates the texture, enters the loop, pulls,
and later presents the fallback. When pipeline construction fails on an
object whose window exists the run likewise enters the loop, pulls, handles
a key event that changes the existing window, and presents the fallback.
Only a failed window creation returns before the loop. -/
theorem unchecked_failures_reach_pump :
    (play_video env_no_context "a.mp4" app_chosen).1.app.sdl_glcontext = none ∧
    Call.glGenTextures ∈ (play_video env_no_context "a.mp4" app_chosen).1.trace ∧
    Call.gst_app_sink_try_pull_sample 100000 none ∈
      (play_video env_no_context "a.mp4" app_chosen).1.trace ∧
    Call.glQuads fallback_quad ∈ (play_video env_no_context "a.mp4" app_chosen).1.trace ∧
    app_after_session.sdl_window =
      some { handle := 1, fullscreen_desktop := true, x := 0, y := 0, w := 1920, h := 1080 } ∧
    Call.gst_app_sink_try_pull_sample 100000 none ∈
      (play_video env_no_pipeline "a.mp4" app_after_session).1.trace ∧
    ((play_video env_no_pipeline "a.mp4" app_after_session).1.trace.filter Call.is_swap).length
      = 1 ∧
    (play_video env_no_pipeline "a.mp4" app_after_session).1.app.sdl_window =
      some { handle := 1, fullscreen_desktop := false, x := 100, y := 100, w := 800, h := 600 } ∧
    (play_video env_no_window "a.mp4" app_chosen).1.trace =
      [Call.SDL_Init, Call.SDL_GetDisplayBounds 0, Call.SDL_CreateWindow 0 0 1920 1080,
       Call.cerr "SDL_CreateWindow failed: ", Call.SDL_Quit] := by
  decide

/-- C6, the code at the failing interleaving. The start writes false, the
stop request writes true and blocks the UI thread in `join`, then line 136
on the worker writes false again: the flag goes from true back to false
within the session. The loop condition then reads false, the worker keeps
pulling, and the UI thread stays blocked. -/
theorem stop_request_overwritten_by_worker :
    (Sys.init "a.mp4" "f.png" 0).flag_history sched_lost_stop =
      [false, true, false, false, false, false] ∧
    ((Sys.init "a.mp4" "f.png" 0).run (sched_lost_stop.take 2)).ui_blocked = true ∧
    ((Sys.init "a.mp4" "f.png" 0).run (sched_lost_stop.take 2)).ui_calls =
      [Call.set_label "Stop", Call.cout_selected_display 0, Call.thread_spawn "a.mp4",
       Call.set_label "Start", Call.thread_join] ∧
    ((Sys.init "a.mp4" "f.png" 0).run sched_lost_stop).ui_blocked = true ∧
    ((Sys.init "a.mp4" "f.png" 0).run sched_lost_stop).pb.app.playback_thread = .running ∧
    (((Sys.init "a.mp4" "f.png" 0).run sched_lost_stop).pb.trace.filter Call.is_pull).length
      = 2 := by
  decide

/-- C9, the code at the failing input. The first session leaves the window
windowed. In the second session `is_fullscreen` starts at true again, so the
first press of f calls `SDL_SetWindowFullscreen (window, 0)` on a window that
is already windowed: the mode before and after the toggle is windowed. -/
theorem first_toggle_of_later_session_keeps_windowed :
    (play_video env_key_then_stop "a.mp4" app_chosen).2 = true ∧
    app_left_windowed.sdl_window =
      some { handle := 1, fullscreen_desktop := false, x := 100, y := 100, w := 800, h := 600 } ∧
    (play_video { env_ok with inputs := [input_key_f] } "b.mp4" app_left_windowed).1.app.sdl_window
      = some { handle := 1, fullscreen_desktop := false, x := 100, y := 100, w := 800, h := 600 } ∧
    Call.SDL_SetWindowFullscreen false ∈
      (play_video { env_ok with inputs := [input_key_f] } "b.mp4" app_left_windowed).1.trace ∧
    Call.SDL_SetWindowFullscreen true ∉
      (play_video { env_ok with inputs := [input_key_f] } "b.mp4" app_left_windowed).1.trace := by
  decide

/-! ## What the loop leaves alone -/

theorem same_outside_pump_refl (a : VideoApp) : a.same_outside_pump a :=
  ⟨rfl, rfl, rfl, rfl, rfl, rfl, rfl⟩

theorem same_outside_pump_trans {a b c : VideoApp} (h1 : a.same_outside_pump b)
    (h2 : b.same_outside_pump c) : a.same_outside_pump c := by
  obtain ⟨a1, a2, a3, a4, a5, a6, a7⟩ := h1
  obtain ⟨b1, b2, b3, b4, b5, b6, b7⟩ := h2
  exact ⟨b1.trans a1, b2.trans a2, b3.trans a3, b4.trans a4, b5.trans a5, b6.trans a6,
    b7.trans a7⟩

theorem handle_event_frame (e : SDL_Event) (p : Playback) :
    p.app.same_outside_pump (handle_event e p).app ∧
    (e ≠ .quit → (handle_event e p).app.button_active = p.app.button_active ∧
      (handle_event e p).app.stop_playback = p.app.stop_playback) := by
  cases e with
  | quit => exact ⟨⟨rfl, rfl, rfl, rfl, rfl, rfl, rfl⟩, fun h => absurd rfl h⟩
  | other => exact ⟨⟨rfl, rfl, rfl, rfl, rfl, rfl, rfl⟩, fun _ => ⟨rfl, rfl⟩⟩
  | keydown sym =>
    by_cases hs : sym = SDLK_f
    · by_cases hf : p.is_fullscreen = true
      · refine ⟨⟨?_, ?_, ?_, ?_, ?_, ?_, ?_⟩, fun _ => ⟨?_, ?_⟩⟩ <;>
          simp [handle_event, toggle_fullscreen, hs, hf, SDL_Window.set_fullscreen,
            SDL_Window.set_size, SDL_Window.set_position, Function.comp_def]
      · refine ⟨⟨?_, ?_, ?_, ?_, ?_, ?_, ?_⟩, fun _ => ⟨?_, ?_⟩⟩ <;>
          simp [handle_event, toggle_fullscreen, hs, hf, SDL_Window.set_fullscreen,
            Function.comp_def]
    · refine ⟨⟨?_, ?_, ?_, ?_, ?_, ?_, ?_⟩, fun _ => ⟨?_, ?_⟩⟩ <;> simp [handle_event, hs]

theorem foldl_handle_event_frame (es : List SDL_Event) (p : Playback) :
    p.app.same_outside_pump (es.foldl (fun q e => handle_event e q) p).app ∧
    (SDL_Event.quit ∉ es →
      (es.foldl (fun q e => handle_event e q) p).app.button_active = p.app.button_active ∧
      (es.foldl (fun q e => handle_event e q) p).app.stop_playback = p.app.stop_playback) := by
  induction es generalizing p with
  | nil => exact ⟨same_outside_pump_refl _, fun _ => ⟨rfl, rfl⟩⟩
  | cons e rest ih =>
    obtain ⟨f1, g1⟩ := handle_event_frame e p
    obtain ⟨f2, g2⟩ := ih (handle_event e p)
    refine ⟨same_outside_pump_trans f1 f2, fun hq => ?_⟩
    have he : e ≠ .quit := fun h => hq (by simp [h])
    have hr : SDL_Event.quit ∉ rest := fun h => hq (by simp [h])
    obtain ⟨a1, a2⟩ := g1 he
    obtain ⟨b1, b2⟩ := g2 hr
    exact ⟨b1.trans a1, b2.trans a2⟩

theorem pump_iteration_frame (sink : Bool) (i : PumpInput) (p : Playback) :
    p.app.same_outside_pump (pump_iteration sink i p).app ∧
    (SDL_Event.quit ∉ i.events →
      (pump_iteration sink i p).app.button_active = p.app.button_active ∧
      (pump_iteration sink i p).app.stop_playback = p.app.stop_playback) := by
  have h : (pump_iteration sink i p).app =
      (i.events.foldl (fun q e => handle_event e q) p).app := by
    cases hr : (if sink then i.pull else none) <;>
      simp [pump_iteration, hr, drain_events, render_sample]
  rw [h]
  exact foldl_handle_event_frame i.events p

theorem pump_loop_frame (sink : Bool) (ins : List PumpInput) (p : Playback) :
    p.app.same_outside_pump (pump_loop sink ins p).1.app ∧
    ((pump_loop sink ins p).2 = true → (pump_loop sink ins p).1.app.stop_playback = true) := by
  induction ins generalizing p with
  | nil => exact ⟨same_outside_pump_refl _, fun h => by simpa [pump_loop] using h⟩
  | cons i rest ih =>
    by_cases hstop : (p.app.stop_playback || i.ui_stop) = true
    · simp only [pump_loop, hstop, if_true]
      exact ⟨⟨rfl, rfl, rfl, rfl, rfl, rfl, rfl⟩, fun _ => trivial⟩
    · have hloop : pump_loop sink (i :: rest) p = pump_loop sink rest (pump_iteration sink i
          { p with app := { p.app with stop_playback := p.app.stop_playback || i.ui_stop } }) := by
        simp only [pump_loop]
        rw [if_neg hstop]
      rw [hloop]
      obtain ⟨f1, -⟩ := pump_iteration_frame sink i
        { p with app := { p.app with stop_playback := p.app.stop_playback || i.ui_stop } }
      obtain ⟨f2, g2⟩ := ih (pump_iteration sink i
        { p with app := { p.app with stop_playback := p.app.stop_playback || i.ui_stop } })
      exact ⟨same_outside_pump_trans (same_outside_pump_trans ⟨rfl, rfl, rfl, rfl, rfl, rfl, rfl⟩ f1)
        f2, g2⟩

theorem pump_loop_no_stop (sink : Bool) (ins : List PumpInput) (p : Playback)
    (hp : p.app.stop_playback = false) (h : no_stop_input ins) :
    (pump_loop sink ins p).2 = false ∧
    (pump_loop sink ins p).1.app.stop_playback = false ∧
    ((pump_loop sink ins p).1.trace.filter Call.is_pull).length =
      (p.trace.filter Call.is_pull).length + ins.length := by
  induction ins generalizing p with
  | nil => simp [pump_loop, hp]
  | cons i rest ih =>
    obtain ⟨hi1, hi2⟩ := h i (by simp)
    have hstop : ¬ ((p.app.stop_playback || i.ui_stop) = true) := by simp [hp, hi1]
    have hloop : pump_loop sink (i :: rest) p = pump_loop sink rest (pump_iteration sink i
        { p with app := { p.app with stop_playback := p.app.stop_playback || i.ui_stop } }) := by
      simp only [pump_loop]
      rw [if_neg hstop]
    obtain ⟨-, g1⟩ := pump_iteration_frame sink i
      { p with app := { p.app with stop_playback := p.app.stop_playback || i.ui_stop } }
    obtain ⟨ev, hev, htr, -⟩ := pump_iteration_trace sink i
      { p with app := { p.app with stop_playback := p.app.stop_playback || i.ui_stop } }
    have hflag : (pump_iteration sink i
        { p with app := { p.app with stop_playback := p.app.stop_playback || i.ui_stop } }
        ).app.stop_playback = false := by
      rw [(g1 hi2).2]
      simp [hp, hi1]
    obtain ⟨r1, r2, r3⟩ := ih (pump_iteration sink i
      { p with app := { p.app with stop_playback := p.app.stop_playback || i.ui_stop } })
      hflag (fun j hj => h j (by simp [hj]))
    rw [hloop]
    refine ⟨r1, r2, ?_⟩
    rw [r3, htr]
    have hz : (ev.filter Call.is_pull).length = 0 := by
      simp only [List.length_eq_zero, List.filter_eq_nil_iff]
      intro c hc
      simp [(event_call_not_tex c (hev c hc)).2.2.1]
    have q3 := (pull_calls_facts p.first_frame (if sink then i.pull else none)
      i.win_w i.win_h).2.2.1
    simp only [List.filter_append, List.length_append, hz, q3, List.length_cons]
    omega

theorem handle_event_texid (e : SDL_Event) (p : Playback) :
    (handle_event e p).texid = p.texid := by
  cases e with
  | quit => rfl
  | other => rfl
  | keydown sym =>
    by_cases hs : sym = SDLK_f <;> by_cases hf : p.is_fullscreen = true <;>
      simp [handle_event, toggle_fullscreen, hs, hf]

theorem pump_iteration_texid (sink : Bool) (i : PumpInput) (p : Playback) :
    (pump_iteration sink i p).texid = p.texid := by
  have h : ∀ (es : List SDL_Event) (q : Playback),
      (es.foldl (fun q e => handle_event e q) q).texid = q.texid := by
    intro es
    induction es with
    | nil => intro q; rfl
    | cons e rest ih => intro q; simp only [List.foldl_cons, ih, handle_event_texid]
  cases hr : (if sink then i.pull else none) <;>
    simp [pump_iteration, hr, drain_events, render_sample, h]

theorem pump_loop_texid (sink : Bool) (ins : List PumpInput) (p : Playback) :
    (pump_loop sink ins p).1.texid = p.texid := by
  induction ins generalizing p with
  | nil => rfl
  | cons i rest ih =>
    by_cases hstop : (p.app.stop_playback || i.ui_stop) = true
    · simp only [pump_loop, hstop, if_true]
    · simp only [pump_loop]
      rw [if_neg hstop, ih, pump_iteration_texid]

theorem ensure_window_ok (env : PlayEnv) (app : VideoApp) (h : window_available env app) :
    (ensure_window env (play_video_entry app)).2 = true := by
  unfold ensure_window
  cases hw : app.sdl_window with
  | some w => simp [play_video_entry, hw]
  | none =>
    rcases h with h | ⟨h1, h2⟩
    · simp [hw] at h
    · obtain ⟨x, hx⟩ := Option.isSome_iff_exists.mp h2
      simp [play_video_entry, hw, h1, hx]

theorem ensure_window_frame (env : PlayEnv) (p : Playback) :
    (ensure_window env p).1.app.image_chooser = p.app.image_chooser ∧
    (ensure_window env p).1.app.file_chooser = p.app.file_chooser ∧
    (ensure_window env p).1.app.button_active = p.app.button_active ∧
    (ensure_window env p).1.app.playback_thread = p.app.playback_thread ∧
    (ensure_window env p).1.app.stop_playback = p.app.stop_playback ∧
    (∀ w, p.app.sdl_window = some w → ensure_window env p = (p, true)) := by
  unfold ensure_window
  cases hw : p.app.sdl_window with
  | some w => simp
  | none =>
    cases hi : env.sdl_init_ok <;> cases hc : env.create_window <;> simp

theorem pump_entry_stop_clear (env : PlayEnv) (filepath : String) (app : VideoApp) :
    (pump_entry env filepath app).app.stop_playback = false ∧
    (pump_entry env filepath app).app.image_chooser = app.image_chooser := by
  obtain ⟨h1, -, -, -, h5, -⟩ := ensure_window_frame env (play_video_entry app)
  exact ⟨by simpa [pump_entry, open_pipeline] using h5,
    by simpa [pump_entry, open_pipeline] using h1⟩

theorem not_stbi_load (c : Call) (h : c.is_prologue_call = true ∨ c.is_pump_call = true)
    (path : String) : c ≠ Call.stbi_load path := by
  cases c <;> simp_all [Call.is_prologue_call, Call.is_pump_call, Call.is_event_call]

/-- C4 as amended: the loop has no end-of-stream test. In a run that reaches
the loop, with a fallback image chosen that decodes: as long as no stop is
requested and no quit event arrives, whatever the pulls return (also nothing
at all, as after end-of-stream), the run stays in the loop, pulls once per
pass, and loads no fallback image. When no quit event is polled and the run
has returned, the UI thread has requested the stop, the stop flag is set, and
what follows the trace of the loop is the teardown and one fallback
presentation: exactly one buffer swap and no pull. -/
theorem pump_runs_until_stop_then_one_fallback (env : PlayEnv) (filepath : String)
    (app : VideoApp) (img : StbImage) (hwin : window_available env app)
    (hpath : app.image_chooser ≠ "") (himg : env.image = some img) :
    (no_stop_input env.inputs →
      (play_video env filepath app).2 = false ∧
      ((play_video env filepath app).1.trace.filter Call.is_pull).length = env.inputs.length ∧
      ∀ path, Call.stbi_load path ∉ (play_video env filepath app).1.trace) ∧
    (no_quit_input env.inputs → (play_video env filepath app).2 = true →
      (∃ i ∈ env.inputs, i.ui_stop = true) ∧
      (play_video env filepath app).1.app.stop_playback = true ∧
      (play_video env filepath app).1.trace =
        (pump_loop env.parse_launch.isSome env.inputs (pump_entry env filepath app)).1.trace ++
          fallback_tail env env.texid app.image_chooser img ∧
      ((fallback_tail env env.texid app.image_chooser img).filter Call.is_swap).length = 1 ∧
      (fallback_tail env env.texid app.image_chooser img).filter Call.is_pull = []) := by
  have hr := ensure_window_ok env app hwin
  obtain ⟨hs, hi⟩ := pump_entry_stop_clear env filepath app
  have hpv : play_video env filepath app =
      if (pump_loop env.parse_launch.isSome env.inputs (pump_entry env filepath app)).2 = true
      then (finish_playback env
        (pump_loop env.parse_launch.isSome env.inputs (pump_entry env filepath app)).1, true)
      else ((pump_loop env.parse_launch.isSome env.inputs (pump_entry env filepath app)).1,
        false) := by
    simp only [play_video, hr, if_true, pump_entry]
  have hstay : no_stop_input env.inputs →
      (pump_loop env.parse_launch.isSome env.inputs (pump_entry env filepath app)).2
        = false := fun hno =>
    (pump_loop_no_stop env.parse_launch.isSome env.inputs
      (pump_entry env filepath app) hs hno).1
  constructor
  · intro hno
    obtain ⟨r1, -, r3⟩ := pump_loop_no_stop env.parse_launch.isSome env.inputs
      (pump_entry env filepath app) hs hno
    rw [hpv]
    simp only [r1, Bool.false_eq_true, if_false]
    refine ⟨trivial, ?_, ?_⟩
    · rw [r3, (pump_entry_quiet env filepath app).2.2]
      simp
    · intro path hmem
      obtain ⟨new, k, -, htr, hcalls, -, -, -⟩ :=
        pump_loop_trace env.parse_launch.isSome env.inputs (pump_entry env filepath app)
      rw [htr] at hmem
      rcases List.mem_append.mp hmem with h | h
      · exact not_stbi_load _ (Or.inl (pump_entry_trace env filepath app _ h)) path rfl
      · exact not_stbi_load _ (Or.inr (hcalls _ h)) path rfl
  · intro hnq hret
    have hl : (pump_loop env.parse_launch.isSome env.inputs (pump_entry env filepath app)).2
        = true := by
      by_contra hne
      rw [hpv] at hret
      simp [hne] at hret
    have hui : ∃ i ∈ env.inputs, i.ui_stop = true := by
      by_contra hnone
      have hno : no_stop_input env.inputs := by
        intro i hi
        refine ⟨?_, hnq i hi⟩
        cases hu : i.ui_stop with
        | false => rfl
        | true => exact absurd ⟨i, hi, hu⟩ hnone
      rw [hstay hno] at hl
      exact Bool.false_ne_true hl
    obtain ⟨hf, hstop⟩ := pump_loop_frame env.parse_launch.isSome env.inputs
      (pump_entry env filepath app)
    have hic : (pump_loop env.parse_launch.isSome env.inputs
        (pump_entry env filepath app)).1.app.image_chooser = app.image_chooser :=
      hf.2.2.1.trans hi
    have htex : (pump_loop env.parse_launch.isSome env.inputs
        (pump_entry env filepath app)).1.texid = env.texid := by
      rw [pump_loop_texid]
      rfl
    rw [hpv]
    simp only [hl, if_true]
    refine ⟨hui, by simpa [finish_playback] using hstop hl, ?_, ?_, ?_⟩
    · simp [finish_playback, finish_calls, fallback_tail, hic, hpath, himg, htex]
    · simp [fallback_tail, fallback_calls, Call.is_swap]
    · simp [fallback_tail, fallback_calls, Call.is_pull]

/-- A run stopped by the UI thread after one sample and one miss. -/
theorem pump_runs_until_stop_then_one_fallback_witness :
    window_available env_stopped app_chosen ∧ app_chosen.image_chooser ≠ "" ∧
    no_quit_input env_stopped.inputs ∧
    (play_video env_stopped "a.mp4" app_chosen).2 = true ∧
    (play_video env_stopped "a.mp4" app_chosen).1.app.stop_playback = true :=
  ⟨Or.inr ⟨rfl, rfl⟩, by decide, by decide, by decide,
   ((pump_runs_until_stop_then_one_fallback env_stopped "a.mp4" app_chosen
      { img_w := 4, img_h := 4, img_data := 9 } (Or.inr ⟨rfl, rfl⟩) (by decide) rfl).2
      (by decide) (by decide)).2.1⟩

/-! ## Sessions on the same object -/

theorem handle_event_with_display (d : Int) (e : SDL_Event) (p : Playback) :
    handle_event e (p.with_display d) = (handle_event e p).with_display d := by
  cases e with
  | quit => rfl
  | other => rfl
  | keydown sym =>
    by_cases hs : sym = SDLK_f <;> by_cases hf : p.is_fullscreen = true <;>
      simp [handle_event, toggle_fullscreen, hs, hf, Playback.with_display]

theorem pump_iteration_with_display (d : Int) (sink : Bool) (i : PumpInput) (p : Playback) :
    pump_iteration sink i (p.with_display d) = (pump_iteration sink i p).with_display d := by
  have h : ∀ (es : List SDL_Event) (q : Playback),
      es.foldl (fun q e => handle_event e q) (q.with_display d) =
        (es.foldl (fun q e => handle_event e q) q).with_display d := by
    intro es
    induction es with
    | nil => intro q; rfl
    | cons e rest ih => intro q; simp only [List.foldl_cons, handle_event_with_display, ih]
  cases hr : (if sink then i.pull else none) with
  | none =>
    simp only [pump_iteration, hr, drain_events, h]
    rfl
  | some s =>
    simp only [pump_iteration, hr, drain_events, h]
    rfl

theorem pump_loop_with_display (d : Int) (sink : Bool) (ins : List PumpInput) (p : Playback) :
    pump_loop sink ins (p.with_display d) =
      ((pump_loop sink ins p).1.with_display d, (pump_loop sink ins p).2) := by
  induction ins generalizing p with
  | nil => rfl
  | cons i rest ih =>
    have e1 : ({ p.with_display d with app :=
        { (p.with_display d).app with
          stop_playback := (p.with_display d).app.stop_playback || i.ui_stop } } : Playback) =
        ({ p with app := { p.app with stop_playback := p.app.stop_playback || i.ui_stop } }
          : Playback).with_display d := rfl
    by_cases hstop : (p.app.stop_playback || i.ui_stop) = true
    · have hstop2 : ((p.with_display d).app.stop_playback || i.ui_stop) = true := hstop
      simp only [pump_loop, hstop, hstop2, if_true]
      rfl
    · have hstop2 : ¬ ((p.with_display d).app.stop_playback || i.ui_stop) = true := hstop
      simp only [pump_loop]
      rw [if_neg hstop, if_neg hstop2, e1, pump_iteration_with_display, ih]

theorem play_video_of_window (env : PlayEnv) (filepath : String) (app : VideoApp)
    (w : SDL_Window) (hw : app.sdl_window = some w) :
    play_video env filepath app =
      if (pump_loop env.parse_launch.isSome env.inputs
          (open_pipeline env filepath (play_video_entry app))).2 = true
      then (finish_playback env (pump_loop env.parse_launch.isSome env.inputs
          (open_pipeline env filepath (play_video_entry app))).1, true)
      else ((pump_loop env.parse_launch.isSome env.inputs
          (open_pipeline env filepath (play_video_entry app))).1, false) := by
  have h := (ensure_window_frame env (play_video_entry app)).2.2.2.2.2 w
    (by simpa [play_video_entry] using hw)
  simp only [play_video, h, if_true]

theorem play_video_with_display (env : PlayEnv) (filepath : String) (app : VideoApp)
    (w : SDL_Window) (hw : app.sdl_window = some w) (d : Int) (bounds : Int → SDL_Rect) :
    play_video { env with display_bounds := bounds } filepath { app with combo_display := d } =
      ((play_video env filepath app).1.with_display d, (play_video env filepath app).2) := by
  rw [play_video_of_window env filepath app w hw,
    play_video_of_window { env with display_bounds := bounds } filepath
      { app with combo_display := d } w hw]
  have e1 : open_pipeline { env with display_bounds := bounds } filepath
      (play_video_entry { app with combo_display := d }) =
      (open_pipeline env filepath (play_video_entry app)).with_display d := rfl
  simp only [e1, pump_loop_with_display]
  by_cases hl : (pump_loop env.parse_launch.isSome env.inputs
      (open_pipeline env filepath (play_video_entry app))).2 = true
  · simp only [hl, if_true]
    rfl
  · simp [hl]

theorem play_video_keeps_surface (env : PlayEnv) (filepath : String) (app : VideoApp)
    (w : SDL_Window) (hw : app.sdl_window = some w) :
    (play_video env filepath app).1.app.sdl_window.map (fun x => x.handle) = some w.handle ∧
    (play_video env filepath app).1.app.sdl_glcontext = app.sdl_glcontext := by
  rw [play_video_of_window env filepath app w hw]
  obtain ⟨⟨-, -, -, -, -, h6, h7⟩, -⟩ := pump_loop_frame env.parse_launch.isSome env.inputs
    (open_pipeline env filepath (play_video_entry app))
  have e7 : (open_pipeline env filepath (play_video_entry app)).app.sdl_window = some w := by
    simpa [open_pipeline, play_video_entry] using hw
  rw [e7] at h7
  by_cases hl : (pump_loop env.parse_launch.isSome env.inputs
      (open_pipeline env filepath (play_video_entry app))).2 = true
  · simp only [hl, if_true, finish_playback]
    exact ⟨h7, h6⟩
  · simp only [hl, if_false]
    exact ⟨h7, h6⟩

theorem finish_calls_no_creation (env : PlayEnv) (p : Playback) :
    ∀ c ∈ finish_calls env p, c.is_surface_creation = false := by
  intro c hc
  unfold finish_calls at hc
  by_cases hi : p.app.image_chooser = ""
  · simp [hi] at hc
    rcases hc with h | h | h | h <;> subst h <;> rfl
  · cases himg : env.image with
    | none =>
      simp [hi, himg] at hc
      rcases hc with h | h | h | h | h <;> subst h <;> rfl
    | some img =>
      simp [hi, himg, fallback_calls] at hc
      casesm* _ ∨ _ <;> subst_vars <;> rfl

theorem pump_call_no_creation (c : Call) (h : c.is_pump_call = true) :
    c.is_surface_creation = false := by
  cases c <;> simp_all [Call.is_pump_call, Call.is_event_call, Call.is_surface_creation]

theorem play_video_no_creation (env : PlayEnv) (filepath : String) (app : VideoApp)
    (w : SDL_Window) (hw : app.sdl_window = some w) :
    ∀ c ∈ (play_video env filepath app).1.trace, c.is_surface_creation = false := by
  have hpump : ∀ c ∈ (pump_loop env.parse_launch.isSome env.inputs
      (open_pipeline env filepath (play_video_entry app))).1.trace,
      c.is_surface_creation = false := by
    intro c hc
    obtain ⟨new, k, -, htr, hcalls, -, -, -⟩ := pump_loop_trace env.parse_launch.isSome
      env.inputs (open_pipeline env filepath (play_video_entry app))
    rw [htr] at hc
    rcases List.mem_append.mp hc with h | h
    · simp [open_pipeline, play_video_entry] at h
      rcases h with h | h | h | h | h | h <;> subst h <;> rfl
    · exact pump_call_no_creation c (hcalls c h)
  rw [play_video_of_window env filepath app w hw]
  by_cases hl : (pump_loop env.parse_launch.isSome env.inputs
      (open_pipeline env filepath (play_video_entry app))).2 = true
  · simp only [hl, if_true, finish_playback]
    intro c hc
    rcases List.mem_append.mp hc with h | h
    · exact hpump c h
    · exact finish_calls_no_creation env _ c h
  · simp only [hl, if_false]
    exact hpump

theorem play_sessions_keeps_surface (later : List (PlayEnv × String)) (app : VideoApp)
    (w : SDL_Window) (hw : app.sdl_window = some w) :
    ∃ w2, (play_sessions later app).sdl_window = some w2 ∧ w2.handle = w.handle ∧
      (play_sessions later app).sdl_glcontext = app.sdl_glcontext := by
  induction later generalizing app w with
  | nil => exact ⟨w, hw, rfl, rfl⟩
  | cons s rest ih =>
    obtain ⟨h1, h2⟩ := play_video_keeps_surface s.1 s.2 app w hw
    cases hw1 : (play_video s.1 s.2 app).1.app.sdl_window with
    | none => simp [hw1] at h1
    | some w1 =>
      have he1 : w1.handle = w.handle := by simpa [hw1] using h1
      obtain ⟨w2, hw2, he2, hc2⟩ := ih (play_video s.1 s.2 app).1.app w1 hw1
      exact ⟨w2, hw2, he2.trans he1, hc2.trans h2⟩

/-- C8: on an object whose window exists, after any number of further
sessions, a run of `play_video` ends with the same window handle and the
same context handle, makes no `SDL_Init`, `SDL_GetDisplayBounds`,
`SDL_CreateWindow` or `SDL_GL_CreateContext` call, and neither its trace nor
the window it leaves depends on the display selected or on the bounds SDL
reports for it. -/
theorem surface_reused_across_sessions (app : VideoApp) (w : SDL_Window)
    (hw : app.sdl_window = some w) (later : List (PlayEnv × String))
    (env : PlayEnv) (filepath : String) :
    (play_video env filepath (play_sessions later app)).1.app.sdl_window.map
      (fun x => x.handle) = some w.handle ∧
    (play_video env filepath (play_sessions later app)).1.app.sdl_glcontext
      = app.sdl_glcontext ∧
    (∀ c ∈ (play_video env filepath (play_sessions later app)).1.trace,
      c.is_surface_creation = false) ∧
    ∀ (d : Int) (bounds : Int → SDL_Rect),
      (play_video { env with display_bounds := bounds } filepath
        { play_sessions later app with combo_display := d }).1.trace =
        (play_video env filepath (play_sessions later app)).1.trace ∧
      (play_video { env with display_bounds := bounds } filepath
        { play_sessions later app with combo_display := d }).1.app.sdl_window =
        (play_video env filepath (play_sessions later app)).1.app.sdl_window := by
  obtain ⟨w2, hw2, he2, hc2⟩ := play_sessions_keeps_surface later app w hw
  obtain ⟨h1, h2⟩ := play_video_keeps_surface env filepath (play_sessions later app) w2 hw2
  refine ⟨by rw [h1, he2], h2.trans hc2,
    play_video_no_creation env filepath (play_sessions later app) w2 hw2, ?_⟩
  intro d bounds
  rw [play_video_with_display env filepath (play_sessions later app) w2 hw2 d bounds]
  exact ⟨rfl, rfl⟩

/-- A third session on the object left by a first and a second one, with an
environment that would hand out other handles. -/
theorem surface_reused_across_sessions_witness :
    app_after_session.sdl_window =
      some { handle := 1, fullscreen_desktop := true, x := 0, y := 0, w := 1920, h := 1080 } ∧
    (play_video { env_ok with create_window := some 5, create_context := some 6 } "c.mp4"
      (play_sessions [(env_key_then_stop, "b.mp4")] app_after_session)).1.app.sdl_window.map
      (fun x => x.handle) = some 1 :=
  ⟨by decide,
   (surface_reused_across_sessions app_after_session
      { handle := 1, fullscreen_desktop := true, x := 0, y := 0, w := 1920, h := 1080 }
      (by decide) [(env_key_then_stop, "b.mp4")]
      { env_ok with create_window := some 5, create_context := some 6 } "c.mp4").1⟩

/-! ## The toggle and the worker handle -/

theorem click_step_keeps (s : Sys) (hs : s.toggle_matches_handle) (hb : s.ui_blocked = false) :
    (click_step s).toggle_matches_handle := by
  obtain ⟨h1, h2, -⟩ := hs
  have h2 := h2 hb
  unfold Sys.toggle_matches_handle click_step
  cases ha : s.pb.app.button_active <;> cases ht : s.pb.app.playback_thread <;>
    simp [ha, ht, ThreadState.joinable] at h2 <;>
    by_cases hf : s.pb.app.file_chooser = "" <;>
    simp [on_play_toggled, button_set_active_false, on_play_toggled_stop, ha, ht, hf, h1, hb,
      ThreadState.joinable]

theorem toggle_matches_of_same (s t : Sys) (hs : s.toggle_matches_handle)
    (h1 : t.terminated = s.terminated) (h2 : t.ui_blocked = s.ui_blocked)
    (h3 : t.pb.app.button_active = s.pb.app.button_active)
    (h4 : t.pb.app.playback_thread.joinable = s.pb.app.playback_thread.joinable) :
    t.toggle_matches_handle := by
  unfold Sys.toggle_matches_handle
  rw [h1, h2, h3, h4]
  exact hs

theorem worker_step_keeps (env : PlayEnv) (i : PumpInput) (s : Sys)
    (hs : s.toggle_matches_handle) (hq : SDL_Event.quit ∉ i.events)
    (hr : s.pb.app.playback_thread = .running) :
    (worker_step env i s).toggle_matches_handle := by
  apply toggle_matches_of_same s _ hs
  · unfold worker_step
    cases s.wpc <;> simp only [] <;> split <;> rfl
  · unfold worker_step
    cases s.wpc <;> simp only [] <;> split <;> rfl
  · unfold worker_step
    cases hpc : s.wpc with
    | line136 => rfl
    | line138 =>
      obtain ⟨-, -, f3, -, -, -⟩ := ensure_window_frame env s.pb
      by_cases hok : (ensure_window env s.pb).2 = true
      · simpa [hok, open_pipeline] using f3
      · simpa [hok] using f3
    | line190 =>
      by_cases hstop : s.pb.app.stop_playback = true
      · simp [hstop, finish_playback]
      · simpa [hstop] using ((pump_iteration_frame s.sink i s.pb).2 hq).1
  · unfold worker_step
    rw [hr]
    cases hpc : s.wpc with
    | line136 => simp [play_video_entry, hr]
    | line138 =>
      obtain ⟨-, -, -, f4, -, -⟩ := ensure_window_frame env s.pb
      by_cases hok : (ensure_window env s.pb).2 = true
      · simp [hok, open_pipeline, f4, hr]
      · simp [hok, ThreadState.joinable]
    | line190 =>
      by_cases hstop : s.pb.app.stop_playback = true
      · simp [hstop, ThreadState.joinable]
      · simp [hstop, (pump_iteration_frame s.sink i s.pb).1.2.2.2.2.1, hr]

theorem step_keeps (s : Sys) (a : Sched) (hs : s.toggle_matches_handle) (ha : a.no_quit) :
    (s.step a).toggle_matches_handle := by
  cases a with
  | choose file image display =>
    by_cases hc : s.terminated = true ∨ s.ui_blocked = true
    · simpa [Sys.step, hc] using hs
    · simp only [Sys.step, hc, if_false]
      exact toggle_matches_of_same s _ hs rfl rfl rfl rfl
  | click =>
    by_cases hc : s.terminated = true ∨ s.ui_blocked = true
    · simpa [Sys.step, hc] using hs
    · simp only [Sys.step, hc, if_false]
      exact click_step_keeps s hs (by simpa using fun h => hc (Or.inr h))
  | join_returns =>
    by_cases hc : s.terminated = false ∧ s.ui_blocked = true ∧
        s.pb.app.playback_thread = .finished
    · obtain ⟨h1, -, h3⟩ := hs
      have hb := (h3 hc.2.1).1
      unfold Sys.toggle_matches_handle
      simp [Sys.step, hc, hb, ThreadState.joinable]
    · simpa [Sys.step, hc] using hs
  | worker env i =>
    by_cases hc : s.terminated = false ∧ s.pb.app.playback_thread = .running
    · simp only [Sys.step, hc, and_self, if_true]
      exact worker_step_keeps env i s hs ha hc.2
    · simpa [Sys.step, hc] using hs

theorem run_keeps (sched : List Sched) (s : Sys) (hs : s.toggle_matches_handle)
    (ha : ∀ a ∈ sched, a.no_quit) : (s.run sched).toggle_matches_handle := by
  induction sched generalizing s with
  | nil => exact hs
  | cons a rest ih =>
    exact ih (s.step a) (step_keeps s a hs (ha a (by simp))) (fun b hb => ha b (by simp [hb]))

/-- C3 as amended: `on_play_toggled` has no session-busy check; a start
request with a non-empty file name writes no error message and constructs a
thread in every state. What excludes a start while a worker is un-joined is
the toggle: in every state reached from the constructed object by
selections, clicks, returns from `join` and worker steps that poll no quit
event, `std::terminate` has not been reached, and while the UI thread is free
the toggle is active exactly when the worker handle is joinable, so a click
that is a start request (toggle inactive before it) finds no un-joined
worker. -/
theorem reentrant_start_excluded_by_toggle (file image : String) (display : Int)
    (sched : List Sched) (hq : ∀ a ∈ sched, a.no_quit) :
    (∀ app : VideoApp, app.button_active = true → app.file_chooser ≠ "" →
      (∀ m, Call.cerr m ∉ (on_play_toggled app).calls) ∧
      Call.thread_spawn app.file_chooser ∈ (on_play_toggled app).calls) ∧
    ((Sys.init file image display).run sched).terminated = false ∧
    (((Sys.init file image display).run sched).ui_blocked = false →
      ((Sys.init file image display).run sched).pb.app.button_active =
        ((Sys.init file image display).run sched).pb.app.playback_thread.joinable) ∧
    (((Sys.init file image display).run sched).ui_blocked = false →
      ((Sys.init file image display).run sched).pb.app.button_active = false →
      ((Sys.init file image display).run sched).pb.app.playback_thread = .not_joinable) := by
  have hinit : (Sys.init file image display).toggle_matches_handle :=
    ⟨rfl, fun _ => rfl, fun h => by simp [Sys.init] at h⟩
  obtain ⟨h1, h2, -⟩ := run_keeps sched (Sys.init file image display) hinit hq
  refine ⟨?_, h1, h2, ?_⟩
  · intro app ha hf
    cases ht : app.playback_thread <;> simp [on_play_toggled, ha, hf, ht]
  · intro hb hact
    have h := h2 hb
    rw [hact] at h
    cases ht : ((Sys.init file image display).run sched).pb.app.playback_thread <;>
      simp [ht, ThreadState.joinable] at h ⊢

/-- Two sessions in a row driven by clicks. -/
theorem reentrant_start_excluded_by_toggle_witness :
    (∀ a ∈ sched_two_sessions, a.no_quit) ∧
    ((Sys.init "a.mp4" "f.png" 0).run sched_two_sessions).terminated = false ∧
    ((Sys.init "a.mp4" "f.png" 0).run sched_two_sessions).pb.app.playback_thread = .running :=
  ⟨by simp [sched_two_sessions, Sched.no_quit, input_miss],
   (reentrant_start_excluded_by_toggle "a.mp4" "f.png" 0 sched_two_sessions
      (by simp [sched_two_sessions, Sched.no_quit, input_miss])).2.1,
   by decide⟩

end Conqueror
